import Mathlib

/-!
Verification of the `AzureBlobStorage` facade (repository `mwasalski/Azure`).

The repository wraps the Azure Blob Storage SDK and pandas behind one class,
`AzureBlobStorage`.  We shallowly embed:

* credential resolution and construction (`AzureBlobStorage.__init__`),
  including the Python `or`-based fallback (an empty string is falsy);
* the remote storage collaborator, modelled as pure functions over an
  explicit `World` state (containers holding named blobs, plus an optional
  service fault that makes every delegated call fail — standing for
  network/auth failures of the external service);
* every catalogued operation of `src/azure_integrator.py`
  (`blob_list`, `create_container`, `delete_container`, `list_containers`,
  `upload_blob`, `download_blob`, `delete_blob`, `parquet_to_df`,
  `df_to_excel`, `df_to_parquet`, `csv_to_df`, `df_to_csv`), each returning
  `Except` values mirroring the Python `try/except` re-raise pattern;
* the variant `list_blobs(prefix, suffix)` method of
  `src/src/azure_integrator/__init__.py` and `src/unnamed/part_000`;
* the external tabular codecs (pandas parquet/csv/excel readers and writers),
  modelled symbolically as the spec describes them: encode takes the column
  data (plus an optional synthetic row-index column) to a tagged payload and
  decode recovers the column data.
-/

namespace AzureIntegrator

/-- Python truthiness of an optional string: `None` and `""` are falsy.
Embeds the semantics of `x or y` and `if not x` applied to
`Optional[str]` values in `AzureBlobStorage.__init__`. -/
def truthy : Option String → Bool
  | none => false
  | some s => !s.isEmpty

/-- Python `a or b` on optional strings: yields `a` when `a` is truthy,
otherwise `b`.  Used for `connection_string or os.getenv(...)`. -/
def pyOr (a b : Option String) : Option String :=
  if truthy a then a else b

/-- The environment configuration source: a read-only lookup for the four
recognized keys (connection secret, container name, default blob-name
prefix and default blob-name suffix).  An absent key yields `none`. -/
structure Env where
  connectionString : Option String
  containerName : Option String
  namePre : Option String
  nameSuf : Option String

/-- Account-level handle: the object returned by
`BlobServiceClient.from_connection_string`.  It records only the secret it
was built from; constructing it performs no remote call. -/
structure AccountHandle where
  connStr : String
deriving DecidableEq, Repr

/-- Container-level handle: the object returned by
`blob_service_client.get_container_client(name)` — a lazy reference holding
the account handle and the container name, with no existence check. -/
structure ContainerHandle where
  account : AccountHandle
  container : String
deriving DecidableEq, Repr

/-- The two handle constructors of the external collaborator, each allowed to
fail with a message (the `str(e)` of the underlying exception). -/
structure Collab where
  from_connection_string : String → Except String AccountHandle
  get_container_client : AccountHandle → String → Except String ContainerHandle

/-- The real SDK constructors: both are lazy and always succeed locally
(client objects are built without contacting the service). -/
def lazyCollab : Collab where
  from_connection_string s := .ok ⟨s⟩
  get_container_client h n := .ok ⟨h, n⟩

/-- Errors raised by `AzureBlobStorage.__init__`: `ValueError` (called
`ConfigurationError` by the spec) for missing credentials, `ConnectionError`
for handle construction failures. -/
inductive InitError
  | valueError (msg : String)
  | connectionError (msg : String)
deriving DecidableEq, Repr

/-- The constructed facade: resolved credentials plus the two handles,
exactly the four attributes `__init__` stores on `self`. -/
structure AzureBlobStorage where
  connection_string : String
  container_name : String
  blob_service_client : AccountHandle
  container_client : ContainerHandle
deriving DecidableEq, Repr

/-- Embedding of `AzureBlobStorage.__init__` from `src/azure_integrator.py`:
resolve each field by `argument or environment`, raise `ValueError` when a
resolved field is falsy (naming the missing field), then build the account
handle from the secret and the container handle from the account handle,
wrapping any collaborator failure in
`ConnectionError("Failed to connect to Azure Storage: " + str(e))`. -/
def AzureBlobStorage.init (collab : Collab) (env : Env)
    (connection_string container_name : Option String) :
    Except InitError AzureBlobStorage :=
  let cs := pyOr connection_string env.connectionString
  let cn := pyOr container_name env.containerName
  if truthy cs = false then
    .error (.valueError "Missing connection string. Check .env file or parameters")
  else if truthy cn = false then
    .error (.valueError "Missing container name. Check .env file or parameters")
  else
    let csv := cs.getD ""
    let cnv := cn.getD ""
    match collab.from_connection_string csv with
    | .error e => .error (.connectionError ("Failed to connect to Azure Storage: " ++ e))
    | .ok svc =>
      match collab.get_container_client svc cnv with
      | .error e => .error (.connectionError ("Failed to connect to Azure Storage: " ++ e))
      | .ok cc =>
        .ok { connection_string := csv, container_name := cnv,
              blob_service_client := svc, container_client := cc }

/-- A cell value of a tabular payload. -/
inductive Cell
  | int (i : Int)
  | str (s : String)
deriving DecidableEq, Repr

/-- A pandas `DataFrame` as the facade exchanges it with the codecs: an
ordered sequence of named columns of cell values (the implicit row index is
handled by the codec model below). -/
structure DataFrame where
  cols : List (String × List Cell)
deriving DecidableEq, Repr

/-- The tabular file formats handled by the codecs. -/
inductive TableFormat
  | parquet
  | csv
  | excel
deriving DecidableEq, Repr

/-- Content stored in a blob: either raw bytes (or text, which we do not
distinguish from bytes), or an encoded table tagged with its format and
carrying the encoded column data. -/
inductive BlobContent
  | bytes (bs : List Nat)
  | tableData (fmt : TableFormat) (cols : List (String × List Cell))
deriving DecidableEq, Repr

/-- Number of rows of a data frame (length of its first column). -/
def DataFrame.nrows (df : DataFrame) : Nat :=
  (df.cols.head?.map (fun c => c.2.length)).getD 0

/-- The synthetic row-index column pandas would add when `index=True`:
row numbers 0, 1, 2, ... -/
def indexColumn (df : DataFrame) : String × List Cell :=
  ("__index__", (List.range df.nrows).map (fun i => Cell.int i))

/-- Modelled from the spec: the encode direction of the external tabular
codecs (pandas `to_parquet`, `to_csv`, `to_excel`) — pandas itself is not
part of the repository.  Encoding stores the column data tagged with the
format; with `index = true` a synthetic row-number column is prepended,
with `index = false` the payload is column-data-only. -/
def encodeTable (fmt : TableFormat) (df : DataFrame) (index : Bool) : BlobContent :=
  .tableData fmt (if index then indexColumn df :: df.cols else df.cols)

/-- Modelled from the spec: the decode direction of the external tabular
codecs (pandas `read_parquet`, `read_csv`, `read_excel`): recover the
column data of a payload of the right format, fail on anything else. -/
def decodeTable (fmt : TableFormat) : BlobContent → Except String DataFrame
  | .tableData f cols => if f = fmt then .ok ⟨cols⟩ else .error "invalid table data"
  | .bytes _ => .error "invalid table data"

/-- Association-list lookup by key (first match). -/
def getAssoc {α : Type} : List (String × α) → String → Option α
  | [], _ => none
  | (k, v) :: t, key => if k = key then some v else getAssoc t key

/-- Association-list insert-or-replace (first match replaced in place,
otherwise appended at the end). -/
def putAssoc {α : Type} : List (String × α) → String → α → List (String × α)
  | [], key, v => [(key, v)]
  | (k, v0) :: t, key, v =>
    if k = key then (key, v) :: t else (k, v0) :: putAssoc t key v

/-- Association-list update of the value at a key, when present. -/
def modifyAssoc {α : Type} : List (String × α) → String → (α → α) → List (String × α)
  | [], _, _ => []
  | (k, v) :: t, key, f =>
    if k = key then (k, f v) :: t else (k, v) :: modifyAssoc t key f

/-- Association-list removal of a key (first match). -/
def removeAssoc {α : Type} : List (String × α) → String → List (String × α)
  | [], _ => []
  | (k, v) :: t, key => if k = key then t else (k, v) :: removeAssoc t key

/-- The blobs of one container: name-to-content associations. -/
abbrev ContainerData : Type := List (String × BlobContent)

/-- Modelled from the spec: the state of the remote storage account reached
through the external collaborator — the containers with their blobs, plus
an optional service fault.  When `fault = some e`, every delegated call
fails with description `e` (standing for auth/network/permission failures,
which the spec says surface on any operation). -/
structure World where
  fault : Option String
  containers : List (String × ContainerData)

/-- Collaborator call `blob_service_client.list_containers()` (names). -/
def World.list_containersSvc (w : World) : Except String (List String) :=
  match w.fault with
  | some e => .error e
  | none => .ok (w.containers.map Prod.fst)

/-- Collaborator call `blob_service_client.create_container(n)`: fails on
a faulted service, an invalid (empty) name, or an existing name. -/
def World.create_containerSvc (w : World) (n : String) : Except String World :=
  match w.fault with
  | some e => .error e
  | none =>
    if n = "" then .error "InvalidResourceName"
    else if (getAssoc w.containers n).isSome then .error "ContainerAlreadyExists"
    else .ok { w with containers := w.containers ++ [(n, [])] }

/-- Collaborator call `blob_service_client.delete_container(n)`: fails on
a faulted service or a missing container. -/
def World.delete_containerSvc (w : World) (n : String) : Except String World :=
  match w.fault with
  | some e => .error e
  | none =>
    if (getAssoc w.containers n).isSome then
      .ok { w with containers := removeAssoc w.containers n }
    else .error "ContainerNotFound"

/-- Optional-filter match used by the collaborator when listing blobs:
`none` means no constraint. -/
def matchesPre (p : Option String) (name : String) : Bool :=
  match p with
  | none => true
  | some s => s.data.isPrefixOf name.data

/-- Optional suffix-filter match: `none` means no constraint. -/
def matchesSuf (p : Option String) (name : String) : Bool :=
  match p with
  | none => true
  | some s => s.data.isSuffixOf name.data

/-- Collaborator call `container_client.list_blobs(...)` on container `c`
with optional prefix and suffix filters: blob names in stored order. -/
def World.list_blobsSvc (w : World) (c : String) (pre suf : Option String) :
    Except String (List String) :=
  match w.fault with
  | some e => .error e
  | none =>
    match getAssoc w.containers c with
    | none => .error "ContainerNotFound"
    | some blobs =>
      .ok ((blobs.map Prod.fst).filter (fun n => matchesPre pre n && matchesSuf suf n))

/-- Collaborator call `blob_client.upload_blob(data, overwrite=ov)` on blob
`n` of container `c`: fails on a faulted service, a missing container, or
an existing blob without `overwrite`. -/
def World.upload_blobSvc (w : World) (c n : String) (data : BlobContent)
    (overwrite : Bool) : Except String World :=
  match w.fault with
  | some e => .error e
  | none =>
    match getAssoc w.containers c with
    | none => .error "ContainerNotFound"
    | some blobs =>
      if !overwrite && (getAssoc blobs n).isSome then .error "BlobAlreadyExists"
      else
        let cs := modifyAssoc w.containers c (fun bs => putAssoc bs n data)
        .ok { w with containers := cs }

/-- Collaborator call `blob_client.download_blob().readall()`: the full
content of blob `n` of container `c`. -/
def World.download_blobSvc (w : World) (c n : String) : Except String BlobContent :=
  match w.fault with
  | some e => .error e
  | none =>
    match getAssoc w.containers c with
    | none => .error "ContainerNotFound"
    | some blobs =>
      match getAssoc blobs n with
      | none => .error "BlobNotFound"
      | some content => .ok content

/-- Collaborator call `blob_client.delete_blob()`. -/
def World.delete_blobSvc (w : World) (c n : String) : Except String World :=
  match w.fault with
  | some e => .error e
  | none =>
    match getAssoc w.containers c with
    | none => .error "ContainerNotFound"
    | some blobs =>
      if (getAssoc blobs n).isSome then
        .ok { w with containers := modifyAssoc w.containers c (fun bs => removeAssoc bs n) }
      else .error "BlobNotFound"

/-- Operation failures: the single `RuntimeError` kind every catalogued
method raises (the spec calls it `OperationError`). -/
inductive OpError
  | runtimeError (msg : String)
deriving DecidableEq, Repr

/-- Method `blob_list` of `src/azure_integrator.py`: list all blob names of
the bound container (no filter arguments); on failure raise
`RuntimeError("Error listing blobs: " + str(e))`. -/
def AzureBlobStorage.blob_list (self : AzureBlobStorage) (w : World) :
    Except OpError (List String) :=
  match w.list_blobsSvc self.container_client.container none none with
  | .ok names => .ok names
  | .error e => .error (.runtimeError ("Error listing blobs: " ++ e))

/-- Method `create_container`: list existing container names; create the
container only when its name is absent, answering a created-successfully
message, otherwise answer an already-exists message without calling create;
wrap any failure as `RuntimeError("Error creating container: " + str(e))`. -/
def AzureBlobStorage.create_container (self : AzureBlobStorage) (w : World)
    (new_container : String) : Except OpError (String × World) :=
  match w.list_containersSvc with
  | .error e => .error (.runtimeError ("Error creating container: " ++ e))
  | .ok existing =>
    if new_container ∉ existing then
      match w.create_containerSvc new_container with
      | .ok w2 => .ok ("Container '" ++ new_container ++ "' created successfully", w2)
      | .error e => .error (.runtimeError ("Error creating container: " ++ e))
    else
      .ok ("Container '" ++ new_container ++ "' already exists", w)

/-- Method `delete_container`: delete the named container at the account
level; wrap failures as `RuntimeError("Error deleting container: ...")`. -/
def AzureBlobStorage.delete_container (self : AzureBlobStorage) (w : World)
    (container_to_delete : String) : Except OpError (String × World) :=
  match w.delete_containerSvc container_to_delete with
  | .ok w2 => .ok ("Container '" ++ container_to_delete ++ "' deleted successfully", w2)
  | .error e => .error (.runtimeError ("Error deleting container: " ++ e))

/-- Method `list_containers`: container names at the account level; wrap
failures as `RuntimeError("Error listing containers: ...")`. -/
def AzureBlobStorage.list_containers (self : AzureBlobStorage) (w : World) :
    Except OpError (List String) :=
  match w.list_containersSvc with
  | .ok names => .ok names
  | .error e => .error (.runtimeError ("Error listing containers: " ++ e))

/-- Method `upload_blob`: get a (lazy) blob client for `blob_name` in the
bound container and upload `data` with the given overwrite flag; wrap
failures as `RuntimeError("Error uploading blob: ...")`. -/
def AzureBlobStorage.upload_blob (self : AzureBlobStorage) (w : World)
    (blob_name : String) (data : BlobContent) (overwrite : Bool := false) :
    Except OpError (String × World) :=
  match w.upload_blobSvc self.container_client.container blob_name data overwrite with
  | .ok w2 => .ok ("Blob '" ++ blob_name ++ "' uploaded successfully", w2)
  | .error e => .error (.runtimeError ("Error uploading blob: " ++ e))

/-- Method `download_blob`: read the entire content of `blob_name` from the
bound container; wrap failures as
`RuntimeError("Error downloading blob: ...")`. -/
def AzureBlobStorage.download_blob (self : AzureBlobStorage) (w : World)
    (blob_name : String) : Except OpError BlobContent :=
  match w.download_blobSvc self.container_client.container blob_name with
  | .ok content => .ok content
  | .error e => .error (.runtimeError ("Error downloading blob: " ++ e))

/-- Method `delete_blob`: remove `blob_name` from the bound container; wrap
failures as `RuntimeError("Error deleting blob: ...")`. -/
def AzureBlobStorage.delete_blob (self : AzureBlobStorage) (w : World)
    (blob_name : String) : Except OpError (String × World) :=
  match w.delete_blobSvc self.container_client.container blob_name with
  | .ok w2 => .ok ("Blob '" ++ blob_name ++ "' deleted successfully", w2)
  | .error e => .error (.runtimeError ("Error deleting blob: " ++ e))

/-- Method `parquet_to_df`: `download_blob` then `pd.read_parquet`; any
failure (including the wrapped one re-raised by `download_blob`) is wrapped
as `RuntimeError("Error converting parquet to DataFrame: " + str(e))`. -/
def AzureBlobStorage.parquet_to_df (self : AzureBlobStorage) (w : World)
    (blob_name : String) : Except OpError DataFrame :=
  match self.download_blob w blob_name with
  | .error (.runtimeError e) =>
    .error (.runtimeError ("Error converting parquet to DataFrame: " ++ e))
  | .ok blob_data =>
    match decodeTable .parquet blob_data with
    | .ok df => .ok df
    | .error e => .error (.runtimeError ("Error converting parquet to DataFrame: " ++ e))

/-- Method `df_to_excel`: encode the data frame with the spreadsheet codec
with `index=False`, then `upload_blob` with `overwrite=True`; failures are
wrapped as `RuntimeError("Error converting DataFrame to Excel: ...")`. -/
def AzureBlobStorage.df_to_excel (self : AzureBlobStorage) (w : World)
    (dataframe : DataFrame) (blob_name : String) : Except OpError (String × World) :=
  match self.upload_blob w blob_name (encodeTable .excel dataframe false) true with
  | .ok r => .ok r
  | .error (.runtimeError e) =>
    .error (.runtimeError ("Error converting DataFrame to Excel: " ++ e))

/-- Method `df_to_parquet`: encode the data frame with the columnar codec
with `index=False`, then `upload_blob` with `overwrite=True`; failures are
wrapped as `RuntimeError("Error converting DataFrame to Parquet: ...")`. -/
def AzureBlobStorage.df_to_parquet (self : AzureBlobStorage) (w : World)
    (dataframe : DataFrame) (blob_name : String) : Except OpError (String × World) :=
  match self.upload_blob w blob_name (encodeTable .parquet dataframe false) true with
  | .ok r => .ok r
  | .error (.runtimeError e) =>
    .error (.runtimeError ("Error converting DataFrame to Parquet: " ++ e))

/-- Method `csv_to_df`: `download_blob` then `pd.read_csv`; failures are
wrapped as `RuntimeError("Error converting CSV to DataFrame: ...")`. -/
def AzureBlobStorage.csv_to_df (self : AzureBlobStorage) (w : World)
    (blob_name : String) : Except OpError DataFrame :=
  match self.download_blob w blob_name with
  | .error (.runtimeError e) =>
    .error (.runtimeError ("Error converting CSV to DataFrame: " ++ e))
  | .ok blob_data =>
    match decodeTable .csv blob_data with
    | .ok df => .ok df
    | .error e => .error (.runtimeError ("Error converting CSV to DataFrame: " ++ e))

/-- Method `df_to_csv`: encode the data frame with the delimited-text codec
with `index=False`, then `upload_blob` with `overwrite=True`; failures are
wrapped as `RuntimeError("Error converting DataFrame to CSV: ...")`. -/
def AzureBlobStorage.df_to_csv (self : AzureBlobStorage) (w : World)
    (dataframe : DataFrame) (blob_name : String) : Except OpError (String × World) :=
  match self.upload_blob w blob_name (encodeTable .csv dataframe false) true with
  | .ok r => .ok r
  | .error (.runtimeError e) =>
    .error (.runtimeError ("Error converting DataFrame to CSV: " ++ e))

/-- The variant facade class of `src/src/azure_integrator/__init__.py` and
`src/unnamed/part_000`: same four construction attributes, plus the
`prefix`/`suffix` attributes its `list_blobs` method assigns on `self`
(named `namePre`/`nameSuf` here). -/
structure VariantBlobStorage where
  connection_string : String
  container_name : String
  blob_service_client : AccountHandle
  container_client : ContainerHandle
  namePre : Option String
  nameSuf : Option String
deriving DecidableEq, Repr

/-- Method `list_blobs(prefix, suffix)` of the variant class: it assigns
`self.prefix = prefix or os.getenv(...)` and likewise for the suffix, but
then calls `container_client.list_blobs(name_starts_with=prefix,
name_ends_with=suffix)` with the raw arguments; there is no try/except, so
a delegated failure propagates unwrapped.  Returns the call result paired
with the post-call object state. -/
def VariantBlobStorage.list_blobs (self : VariantBlobStorage) (env : Env)
    (w : World) (pre suf : Option String) :
    Except String (List String) × VariantBlobStorage :=
  let self1 := { self with namePre := pyOr pre env.namePre,
                           nameSuf := pyOr suf env.nameSuf }
  (w.list_blobsSvc self.container_client.container pre suf, self1)

/-- One invocation of a catalogued facade operation, with its arguments. -/
inductive Op
  | blobList
  | createContainer (n : String)
  | deleteContainer (n : String)
  | listContainers
  | uploadBlob (n : String) (d : BlobContent) (ov : Bool)
  | downloadBlob (n : String)
  | deleteBlob (n : String)
  | parquetToDf (n : String)
  | dfToExcel (df : DataFrame) (n : String)
  | dfToParquet (df : DataFrame) (n : String)
  | csvToDf (n : String)
  | dfToCsv (df : DataFrame) (n : String)

/-- Run one operation: the facade object after the call (no method of
`src/azure_integrator.py` assigns any attribute of `self`, so the object
state is returned as the methods leave it) together with the store state
after the call (unchanged when the delegated call failed). -/
def runOp (self : AzureBlobStorage) (w : World) : Op → AzureBlobStorage × World
  | .blobList => (self, w)
  | .createContainer n =>
    match self.create_container w n with
    | .ok (_, w2) => (self, w2)
    | .error _ => (self, w)
  | .deleteContainer n =>
    match self.delete_container w n with
    | .ok (_, w2) => (self, w2)
    | .error _ => (self, w)
  | .listContainers => (self, w)
  | .uploadBlob n d ov =>
    match self.upload_blob w n d ov with
    | .ok (_, w2) => (self, w2)
    | .error _ => (self, w)
  | .downloadBlob _ => (self, w)
  | .deleteBlob n =>
    match self.delete_blob w n with
    | .ok (_, w2) => (self, w2)
    | .error _ => (self, w)
  | .parquetToDf _ => (self, w)
  | .dfToExcel df n =>
    match self.df_to_excel w df n with
    | .ok (_, w2) => (self, w2)
    | .error _ => (self, w)
  | .dfToParquet df n =>
    match self.df_to_parquet w df n with
    | .ok (_, w2) => (self, w2)
    | .error _ => (self, w)
  | .csvToDf _ => (self, w)
  | .dfToCsv df n =>
    match self.df_to_csv w df n with
    | .ok (_, w2) => (self, w2)
    | .error _ => (self, w)

/-- Run a sequence of operations from left to right. -/
def runSeq (self : AzureBlobStorage) (w : World) : List Op → AzureBlobStorage × World
  | [] => (self, w)
  | o :: os =>
    let (s2, w2) := runOp self w o
    runSeq s2 w2 os

/-- A message mentions a field when the field name occurs in it verbatim. -/
def mentions (needle msg : String) : Prop :=
  ∃ a b, msg = a ++ needle ++ b

/-- The store state after a successful upload of `d` to blob `N` of
container `c`: the blob association of `c` gains or replaces the entry. -/
def afterUpload (w : World) (c N : String) (d : BlobContent) : World :=
  { w with containers := modifyAssoc w.containers c (fun bs2 => putAssoc bs2 N d) }

section AssocLemmas

variable {α : Type}

theorem getAssoc_putAssoc_same (l : List (String × α)) (k : String) (v : α) :
    getAssoc (putAssoc l k v) k = some v := by
  induction l with
  | nil => simp [putAssoc, getAssoc]
  | cons h t ih =>
    by_cases hk : h.1 = k
    · simp [putAssoc, getAssoc, hk]
    · simp [putAssoc, getAssoc, hk, ih]

theorem getAssoc_modifyAssoc_same (l : List (String × α)) (k : String)
    (f : α → α) (v : α) (h : getAssoc l k = some v) :
    getAssoc (modifyAssoc l k f) k = some (f v) := by
  induction l with
  | nil => simp [getAssoc] at h
  | cons hd t ih =>
    by_cases hk : hd.1 = k
    · simp [getAssoc, hk] at h
      simp [modifyAssoc, getAssoc, hk, h]
    · simp [getAssoc, hk] at h
      simp [modifyAssoc, getAssoc, hk, ih h]

theorem getAssoc_append_single_ne (l : List (String × α)) (n c : String)
    (v : α) (h : c ≠ n) :
    getAssoc (l ++ [(n, v)]) c = getAssoc l c := by
  induction l with
  | nil =>
    have h2 : ¬n = c := fun he => h he.symm
    simp [getAssoc, h2]
  | cons hd t ih =>
    by_cases hk : hd.1 = c
    · simp [getAssoc, hk]
    · simp [getAssoc, hk, ih]

theorem getAssoc_removeAssoc_ne (l : List (String × α)) (n c : String)
    (h : c ≠ n) :
    getAssoc (removeAssoc l n) c = getAssoc l c := by
  induction l with
  | nil => simp [removeAssoc]
  | cons hd t ih =>
    by_cases hk : hd.1 = n
    · have h2 : ¬n = c := fun he => h he.symm
      simp [removeAssoc, getAssoc, hk, h2]
    · simp [removeAssoc, getAssoc, hk, ih]

theorem getAssoc_isSome_iff_mem (l : List (String × α)) (k : String) :
    (getAssoc l k).isSome = true ↔ k ∈ l.map Prod.fst := by
  induction l with
  | nil => simp [getAssoc]
  | cons hd t ih =>
    by_cases hk : hd.1 = k
    · simp [getAssoc, hk]
    · have h2 : ¬k = hd.1 := fun he => hk he.symm
      simp [getAssoc, hk, ih, h2]

end AssocLemmas

section Claims

/-- C1: construction resolves the connection secret and the container name
with precedence explicit argument > environment value > absent (a truthy
explicit argument wins, otherwise the environment value is used), and
whenever both resolved values are non-absent, construction with the lazy
SDK handle constructors succeeds and yields a facade bound to the resolved
container; the handles are built from the resolved values alone — in
particular, construction succeeds even for a container name that is absent
from any given store state, so no existence check is performed. -/
theorem init_resolves_and_binds (env : Env) (csArg cnArg : Option String) :
    (truthy csArg = true → pyOr csArg env.connectionString = csArg) ∧
    (truthy csArg = false → pyOr csArg env.connectionString = env.connectionString) ∧
    (truthy cnArg = true → pyOr cnArg env.containerName = cnArg) ∧
    (truthy cnArg = false → pyOr cnArg env.containerName = env.containerName) ∧
    (truthy (pyOr csArg env.connectionString) = true →
     truthy (pyOr cnArg env.containerName) = true →
      AzureBlobStorage.init lazyCollab env csArg cnArg =
        .ok { connection_string := (pyOr csArg env.connectionString).getD "",
              container_name := (pyOr cnArg env.containerName).getD "",
              blob_service_client := ⟨(pyOr csArg env.connectionString).getD ""⟩,
              container_client := ⟨⟨(pyOr csArg env.connectionString).getD ""⟩,
                                   (pyOr cnArg env.containerName).getD ""⟩ }) ∧
    (∀ w : World,
      getAssoc w.containers ((pyOr cnArg env.containerName).getD "") = none →
      truthy (pyOr csArg env.connectionString) = true →
      truthy (pyOr cnArg env.containerName) = true →
      ∃ f, AzureBlobStorage.init lazyCollab env csArg cnArg = .ok f ∧
        f.container_client.container = (pyOr cnArg env.containerName).getD "") := by
  refine ⟨?_, ?_, ?_, ?_, ?_, ?_⟩
  · intro h; simp [pyOr, h]
  · intro h; simp [pyOr, h]
  · intro h; simp [pyOr, h]
  · intro h; simp [pyOr, h]
  · intro hcs hcn
    simp [AzureBlobStorage.init, hcs, hcn, lazyCollab]
  · intro w _ hcs hcn
    refine ⟨{ connection_string := (pyOr csArg env.connectionString).getD "",
              container_name := (pyOr cnArg env.containerName).getD "",
              blob_service_client := ⟨(pyOr csArg env.connectionString).getD ""⟩,
              container_client := ⟨⟨(pyOr csArg env.connectionString).getD ""⟩,
                                   (pyOr cnArg env.containerName).getD ""⟩ }, ?_, rfl⟩
    simp [AzureBlobStorage.init, hcs, hcn, lazyCollab]

/-- Witness for C1 at explicit arguments `"SEC"` and `"mycontainer"` over an
empty environment. -/
theorem init_resolves_and_binds_witness :
    AzureBlobStorage.init lazyCollab ⟨none, none, none, none⟩
        (some "SEC") (some "mycontainer") =
      .ok { connection_string := "SEC", container_name := "mycontainer",
            blob_service_client := ⟨"SEC"⟩,
            container_client := ⟨⟨"SEC"⟩, "mycontainer"⟩ } := by
  have h := (init_resolves_and_binds ⟨none, none, none, none⟩
    (some "SEC") (some "mycontainer")).2.2.2.2.1 (by decide) (by decide)
  simpa [pyOr, truthy] using h

/-- C2: when the resolved connection secret is absent (argument and
environment both falsy), construction fails with the `ValueError` (the
ConfigurationError of the spec) whose message names the connection string;
when the secret resolves but the container name is absent, the message
names the container name.  Both messages mention the missing field and the
two supply channels. -/
theorem init_missing_credentials (collab : Collab) (env : Env)
    (csArg cnArg : Option String) :
    (truthy (pyOr csArg env.connectionString) = false →
      AzureBlobStorage.init collab env csArg cnArg =
        .error (.valueError "Missing connection string. Check .env file or parameters") ∧
      mentions "connection string"
        "Missing connection string. Check .env file or parameters") ∧
    (truthy (pyOr csArg env.connectionString) = true →
     truthy (pyOr cnArg env.containerName) = false →
      AzureBlobStorage.init collab env csArg cnArg =
        .error (.valueError "Missing container name. Check .env file or parameters") ∧
      mentions "container name"
        "Missing container name. Check .env file or parameters") := by
  constructor
  · intro h
    refine ⟨by simp [AzureBlobStorage.init, h], ⟨"Missing ", ". Check .env file or parameters", by decide⟩⟩
  · intro hcs hcn
    refine ⟨by simp [AzureBlobStorage.init, hcs, hcn], ⟨"Missing ", ". Check .env file or parameters", by decide⟩⟩

/-- Witness for C2: with no arguments and an empty environment the
constructor fails naming the connection string. -/
theorem init_missing_credentials_witness :
    AzureBlobStorage.init lazyCollab ⟨none, none, none, none⟩ none none =
      .error (.valueError "Missing connection string. Check .env file or parameters") ∧
    mentions "connection string"
      "Missing connection string. Check .env file or parameters" :=
  (init_missing_credentials lazyCollab ⟨none, none, none, none⟩ none none).1 (by decide)

/-- C3: when the delegated collaborator call fails with description `e`
(here: a faulted service, which makes every delegated call fail), each
catalogued operation fails with `RuntimeError` (the OperationError of the
spec) whose message is exactly `"Error <verb>: " ++ e` for the verb of the
operation; the tabular conversions wrap the message re-raised by the inner
`upload_blob`/`download_blob` call, and a codec failure on a well-served
download is wrapped the same way. -/
theorem operations_wrap_failures (self : AzureBlobStorage) (w : World)
    (e : String) (n : String) (d : BlobContent) (ov : Bool) (df : DataFrame)
    (hf : w.fault = some e) :
    self.blob_list w = .error (.runtimeError ("Error listing blobs: " ++ e)) ∧
    self.list_containers w = .error (.runtimeError ("Error listing containers: " ++ e)) ∧
    self.create_container w n = .error (.runtimeError ("Error creating container: " ++ e)) ∧
    self.delete_container w n = .error (.runtimeError ("Error deleting container: " ++ e)) ∧
    self.upload_blob w n d ov = .error (.runtimeError ("Error uploading blob: " ++ e)) ∧
    self.download_blob w n = .error (.runtimeError ("Error downloading blob: " ++ e)) ∧
    self.delete_blob w n = .error (.runtimeError ("Error deleting blob: " ++ e)) ∧
    self.parquet_to_df w n =
      .error (.runtimeError ("Error converting parquet to DataFrame: " ++
        ("Error downloading blob: " ++ e))) ∧
    self.csv_to_df w n =
      .error (.runtimeError ("Error converting CSV to DataFrame: " ++
        ("Error downloading blob: " ++ e))) ∧
    self.df_to_parquet w df n =
      .error (.runtimeError ("Error converting DataFrame to Parquet: " ++
        ("Error uploading blob: " ++ e))) ∧
    self.df_to_excel w df n =
      .error (.runtimeError ("Error converting DataFrame to Excel: " ++
        ("Error uploading blob: " ++ e))) ∧
    self.df_to_csv w df n =
      .error (.runtimeError ("Error converting DataFrame to CSV: " ++
        ("Error uploading blob: " ++ e))) ∧
    (∀ (w2 : World) (bs : ContainerData), w2.fault = none →
      getAssoc w2.containers self.container_client.container = some bs →
      getAssoc bs n = some (BlobContent.bytes []) →
      self.parquet_to_df w2 n =
        .error (.runtimeError ("Error converting parquet to DataFrame: " ++
          "invalid table data"))) := by
  refine ⟨?_, ?_, ?_, ?_, ?_, ?_, ?_, ?_, ?_, ?_, ?_, ?_, ?_⟩
  · simp [AzureBlobStorage.blob_list, World.list_blobsSvc, hf]
  · simp [AzureBlobStorage.list_containers, World.list_containersSvc, hf]
  · simp [AzureBlobStorage.create_container, World.list_containersSvc, hf]
  · simp [AzureBlobStorage.delete_container, World.delete_containerSvc, hf]
  · simp [AzureBlobStorage.upload_blob, World.upload_blobSvc, hf]
  · simp [AzureBlobStorage.download_blob, World.download_blobSvc, hf]
  · simp [AzureBlobStorage.delete_blob, World.delete_blobSvc, hf]
  · simp [AzureBlobStorage.parquet_to_df, AzureBlobStorage.download_blob,
      World.download_blobSvc, hf]
  · simp [AzureBlobStorage.csv_to_df, AzureBlobStorage.download_blob,
      World.download_blobSvc, hf]
  · simp [AzureBlobStorage.df_to_parquet, AzureBlobStorage.upload_blob,
      World.upload_blobSvc, hf]
  · simp [AzureBlobStorage.df_to_excel, AzureBlobStorage.upload_blob,
      World.upload_blobSvc, hf]
  · simp [AzureBlobStorage.df_to_csv, AzureBlobStorage.upload_blob,
      World.upload_blobSvc, hf]
  · intro w2 bs h2 hc hb
    simp [AzureBlobStorage.parquet_to_df, AzureBlobStorage.download_blob,
      World.download_blobSvc, h2, hc, hb, decodeTable]

/-- Witness for C3: a service failing with `"boom"` makes, for instance,
`blob_list` and `df_to_parquet` fail with the exact wrapped messages, and
decoding a non-parquet blob wraps the codec failure. -/
theorem operations_wrap_failures_witness :
    (AzureBlobStorage.mk "SEC" "cont" ⟨"SEC"⟩ ⟨⟨"SEC"⟩, "cont"⟩).blob_list
        ⟨some "boom", []⟩ =
      .error (.runtimeError "Error listing blobs: boom") ∧
    (AzureBlobStorage.mk "SEC" "cont" ⟨"SEC"⟩ ⟨⟨"SEC"⟩, "cont"⟩).df_to_parquet
        ⟨some "boom", []⟩ ⟨[]⟩ "t.parquet" =
      .error (.runtimeError
        "Error converting DataFrame to Parquet: Error uploading blob: boom") ∧
    (AzureBlobStorage.mk "SEC" "cont" ⟨"SEC"⟩ ⟨⟨"SEC"⟩, "cont"⟩).parquet_to_df
        ⟨none, [("cont", [("x", .bytes [])])]⟩ "x" =
      .error (.runtimeError
        "Error converting parquet to DataFrame: invalid table data") := by
  have h := operations_wrap_failures
    (AzureBlobStorage.mk "SEC" "cont" ⟨"SEC"⟩ ⟨⟨"SEC"⟩, "cont"⟩)
    ⟨some "boom", []⟩ "boom" "t.parquet" (.bytes []) true ⟨[]⟩ rfl
  have h2 := operations_wrap_failures
    (AzureBlobStorage.mk "SEC" "cont" ⟨"SEC"⟩ ⟨⟨"SEC"⟩, "cont"⟩)
    ⟨some "boom", []⟩ "boom" "x" (.bytes []) true ⟨[]⟩ rfl
  refine ⟨h.1, ?_, ?_⟩
  · simpa using h.2.2.2.2.2.2.2.2.2.1
  · exact h2.2.2.2.2.2.2.2.2.2.2.2.2 ⟨none, [("cont", [("x", .bytes [])])]⟩
      [("x", .bytes [])] rfl (by simp [getAssoc]) (by simp [getAssoc])

theorem create_container_when_exists (self : AzureBlobStorage) (w : World)
    (n : String) (hw : w.fault = none) (hm : n ∈ w.containers.map Prod.fst) :
    self.create_container w n =
      .ok ("Container '" ++ n ++ "' already exists", w) := by
  simp [AzureBlobStorage.create_container, World.list_containersSvc, hw, hm]

theorem create_container_when_absent (self : AzureBlobStorage) (w : World)
    (n : String) (hw : w.fault = none) (hn : n ≠ "")
    (hm : n ∉ w.containers.map Prod.fst) :
    self.create_container w n =
      .ok ("Container '" ++ n ++ "' created successfully",
           { w with containers := w.containers ++ [(n, [])] }) := by
  have h2 : (getAssoc w.containers n).isSome = false := by
    rw [Bool.eq_false_iff]
    intro h
    exact hm ((getAssoc_isSome_iff_mem w.containers n).mp h)
  simp [AzureBlobStorage.create_container, World.list_containersSvc,
    World.create_containerSvc, hw, hm, hn, h2]

/-- C4: create-container is idempotent.  For every non-empty container name
on an unfaulted service: when the name already exists in the account the
call answers the already-exists message and does not raise (it returns
`.ok` and leaves the account unchanged); when the name is absent the call
creates the container and answers the created message; and after any
successful call, a second call with the same name answers the
already-exists message. -/
theorem create_container_idempotent (self : AzureBlobStorage) (w : World)
    (n : String) (hn : n ≠ "") (hw : w.fault = none) :
    ((getAssoc w.containers n).isSome = true →
      self.create_container w n =
        .ok ("Container '" ++ n ++ "' already exists", w)) ∧
    (getAssoc w.containers n = none →
      self.create_container w n =
        .ok ("Container '" ++ n ++ "' created successfully",
             { w with containers := w.containers ++ [(n, [])] })) ∧
    (∀ w1 m1, self.create_container w n = .ok (m1, w1) →
      self.create_container w1 n =
        .ok ("Container '" ++ n ++ "' already exists", w1)) := by
  refine ⟨?_, ?_, ?_⟩
  · intro h
    exact create_container_when_exists self w n hw
      ((getAssoc_isSome_iff_mem w.containers n).mp h)
  · intro h
    have hm : n ∉ w.containers.map Prod.fst := by
      rw [← getAssoc_isSome_iff_mem, h]
      simp
    exact create_container_when_absent self w n hw hn hm
  · intro w1 m1 hok
    by_cases hm : n ∈ w.containers.map Prod.fst
    · rw [create_container_when_exists self w n hw hm] at hok
      have hww : w = w1 := ((by simpa using (congrArg id hok)) :
        "Container '" ++ n ++ "' already exists" = m1 ∧ w = w1).2
      subst hww
      exact create_container_when_exists self w n hw hm
    · rw [create_container_when_absent self w n hw hn hm] at hok
      have hww : ({ w with containers := w.containers ++ [(n, [])] } : World) = w1 :=
        ((by simpa using (congrArg id hok)) :
          "Container '" ++ n ++ "' created successfully" = m1 ∧
            ({ w with containers := w.containers ++ [(n, [])] } : World) = w1).2
      subst hww
      refine create_container_when_exists self _ n hw ?_
      simp

/-- Witness for C4: creating `"newc"` in an empty account answers the
created message; the second call on the resulting account answers the
already-exists message. -/
theorem create_container_idempotent_witness :
    (AzureBlobStorage.mk "SEC" "cont" ⟨"SEC"⟩ ⟨⟨"SEC"⟩, "cont"⟩).create_container
        ⟨none, []⟩ "newc" =
      .ok ("Container 'newc' created successfully", ⟨none, [("newc", [])]⟩) ∧
    (AzureBlobStorage.mk "SEC" "cont" ⟨"SEC"⟩ ⟨⟨"SEC"⟩, "cont"⟩).create_container
        ⟨none, [("newc", [])]⟩ "newc" =
      .ok ("Container 'newc' already exists", ⟨none, [("newc", [])]⟩) := by
  have h1 := (create_container_idempotent
    (AzureBlobStorage.mk "SEC" "cont" ⟨"SEC"⟩ ⟨⟨"SEC"⟩, "cont"⟩)
    ⟨none, []⟩ "newc" (by decide) rfl).2.1 rfl
  have h2 := (create_container_idempotent
    (AzureBlobStorage.mk "SEC" "cont" ⟨"SEC"⟩ ⟨⟨"SEC"⟩, "cont"⟩)
    ⟨none, [("newc", [])]⟩ "newc" (by decide) rfl).1 (by simp [getAssoc])
  exact ⟨by simpa using h1, by simpa using h2⟩

/-- C5: evaluation of the variant `list_blobs` at the failing input.  With
the environment default prefix `"a/"`, blobs `a/1`, `a/2`, `b/1` in the
bound container and both arguments absent, the method stores the resolved
default on the object (`self.prefix = "a/"`) yet passes the raw absent
argument to the delegated call, so all three names come back — the
environment-configured default is never applied as a filter.  With the
explicit argument `"a/"` the filter works and exactly `a/1`, `a/2` come
back. -/
theorem variant_list_blobs_ignores_env_default :
    ((VariantBlobStorage.mk "SEC" "cont" ⟨"SEC"⟩ ⟨⟨"SEC"⟩, "cont"⟩ none none).list_blobs
        ⟨none, none, some "a/", none⟩
        ⟨none, [("cont", [("a/1", .bytes []), ("a/2", .bytes []), ("b/1", .bytes [])])]⟩
        none none).1 = .ok ["a/1", "a/2", "b/1"] ∧
    ((VariantBlobStorage.mk "SEC" "cont" ⟨"SEC"⟩ ⟨⟨"SEC"⟩, "cont"⟩ none none).list_blobs
        ⟨none, none, some "a/", none⟩
        ⟨none, [("cont", [("a/1", .bytes []), ("a/2", .bytes []), ("b/1", .bytes [])])]⟩
        none none).2.namePre = some "a/" ∧
    ((VariantBlobStorage.mk "SEC" "cont" ⟨"SEC"⟩ ⟨⟨"SEC"⟩, "cont"⟩ none none).list_blobs
        ⟨none, none, some "a/", none⟩
        ⟨none, [("cont", [("a/1", .bytes []), ("a/2", .bytes []), ("b/1", .bytes [])])]⟩
        (some "a/") none).1 = .ok ["a/1", "a/2"] := by
  refine ⟨rfl, rfl, rfl⟩

/-- C6: uploading the raw bytes `B` to a non-empty blob name `N` with the
overwrite flag set, against an unfaulted service whose account holds the
bound container, then downloading `N` from the resulting store, returns
exactly `B`. -/
theorem upload_download_roundtrip (self : AzureBlobStorage) (w : World)
    (B : List Nat) (N : String) (hN : N ≠ "") (hw : w.fault = none)
    (bs : ContainerData)
    (hc : getAssoc w.containers self.container_client.container = some bs) :
    self.upload_blob w N (.bytes B) true =
      .ok ("Blob '" ++ N ++ "' uploaded successfully",
           afterUpload w self.container_client.container N (.bytes B)) ∧
    self.download_blob (afterUpload w self.container_client.container N (.bytes B)) N =
      .ok (.bytes B) := by
  unfold afterUpload
  constructor
  · simp [AzureBlobStorage.upload_blob, World.upload_blobSvc, hw, hc]
  · have h2 := getAssoc_modifyAssoc_same w.containers
      self.container_client.container (fun bs2 => putAssoc bs2 N (.bytes B)) bs hc
    simp [AzureBlobStorage.download_blob, World.download_blobSvc, hw, h2,
      getAssoc_putAssoc_same]

/-- Witness for C6 at bytes `[1, 2, 3]` and name `"b.bin"` in an account
holding the empty bound container `"cont"`. -/
theorem upload_download_roundtrip_witness :
    (AzureBlobStorage.mk "SEC" "cont" ⟨"SEC"⟩ ⟨⟨"SEC"⟩, "cont"⟩).upload_blob
        ⟨none, [("cont", [])]⟩ "b.bin" (.bytes [1, 2, 3]) true =
      .ok ("Blob 'b.bin' uploaded successfully",
           ⟨none, [("cont", [("b.bin", .bytes [1, 2, 3])])]⟩) ∧
    (AzureBlobStorage.mk "SEC" "cont" ⟨"SEC"⟩ ⟨⟨"SEC"⟩, "cont"⟩).download_blob
        ⟨none, [("cont", [("b.bin", .bytes [1, 2, 3])])]⟩ "b.bin" =
      .ok (.bytes [1, 2, 3]) := by
  have h := upload_download_roundtrip
    (AzureBlobStorage.mk "SEC" "cont" ⟨"SEC"⟩ ⟨⟨"SEC"⟩, "cont"⟩)
    ⟨none, [("cont", [])]⟩ [1, 2, 3] "b.bin" (by decide) rfl [] rfl
  exact ⟨by simpa [modifyAssoc, putAssoc] using h.1,
         by simpa [modifyAssoc, putAssoc] using h.2⟩

theorem upload_blob_overwrite_ok (self : AzureBlobStorage) (w : World)
    (d : BlobContent) (N : String) (hw : w.fault = none) (bs : ContainerData)
    (hc : getAssoc w.containers self.container_client.container = some bs) :
    self.upload_blob w N d true =
      .ok ("Blob '" ++ N ++ "' uploaded successfully",
           afterUpload w self.container_client.container N d) := by
  simp [AzureBlobStorage.upload_blob, World.upload_blobSvc, hw, hc, afterUpload]

theorem download_blob_after_upload (self : AzureBlobStorage) (w : World)
    (d : BlobContent) (N : String) (hw : w.fault = none) (bs : ContainerData)
    (hc : getAssoc w.containers self.container_client.container = some bs) :
    self.download_blob (afterUpload w self.container_client.container N d) N =
      .ok d := by
  have h2 := getAssoc_modifyAssoc_same w.containers
    self.container_client.container (fun bs2 => putAssoc bs2 N d) bs hc
  simp [AzureBlobStorage.download_blob, World.download_blobSvc, afterUpload,
    hw, h2, getAssoc_putAssoc_same]

/-- C7: codec round trips without a row-index column, against an unfaulted
service holding the bound container.  Writing the tabular payload `P` via
`df_to_parquet` and decoding via `parquet_to_df` reproduces `P` exactly;
likewise `df_to_csv` then `csv_to_df`; `df_to_excel` stores exactly the
columns of `P` (decoded back to `P` by the spreadsheet codec, which no
facade operation wraps); and no encode operation adds a synthetic
row-number column: every format is encoded as exactly the columns of `P`,
names, order and cell values preserved. -/
theorem tabular_roundtrip (self : AzureBlobStorage) (w : World) (P : DataFrame)
    (N : String) (hw : w.fault = none) (bs : ContainerData)
    (hc : getAssoc w.containers self.container_client.container = some bs) :
    (self.df_to_parquet w P N =
       .ok ("Blob '" ++ N ++ "' uploaded successfully",
            afterUpload w self.container_client.container N
              (encodeTable .parquet P false)) ∧
     self.parquet_to_df
         (afterUpload w self.container_client.container N
           (encodeTable .parquet P false)) N = .ok P) ∧
    (self.df_to_csv w P N =
       .ok ("Blob '" ++ N ++ "' uploaded successfully",
            afterUpload w self.container_client.container N
              (encodeTable .csv P false)) ∧
     self.csv_to_df
         (afterUpload w self.container_client.container N
           (encodeTable .csv P false)) N = .ok P) ∧
    (self.df_to_excel w P N =
       .ok ("Blob '" ++ N ++ "' uploaded successfully",
            afterUpload w self.container_client.container N
              (encodeTable .excel P false)) ∧
     self.download_blob
         (afterUpload w self.container_client.container N
           (encodeTable .excel P false)) N =
       .ok (.tableData .excel P.cols) ∧
     decodeTable .excel (.tableData .excel P.cols) = .ok P) ∧
    (∀ fmt, encodeTable fmt P false = .tableData fmt P.cols) := by
  obtain ⟨cols⟩ := P
  have hpq := upload_blob_overwrite_ok self w
    (encodeTable .parquet ⟨cols⟩ false) N hw bs hc
  have hcsv := upload_blob_overwrite_ok self w
    (encodeTable .csv ⟨cols⟩ false) N hw bs hc
  have hxl := upload_blob_overwrite_ok self w
    (encodeTable .excel ⟨cols⟩ false) N hw bs hc
  have hdpq := download_blob_after_upload self w
    (encodeTable .parquet ⟨cols⟩ false) N hw bs hc
  have hdcsv := download_blob_after_upload self w
    (encodeTable .csv ⟨cols⟩ false) N hw bs hc
  have hdxl := download_blob_after_upload self w
    (encodeTable .excel ⟨cols⟩ false) N hw bs hc
  refine ⟨⟨?_, ?_⟩, ⟨?_, ?_⟩, ⟨?_, ?_, ?_⟩, ?_⟩
  · simp [AzureBlobStorage.df_to_parquet, hpq]
  · simp only [encodeTable, Bool.false_eq_true, if_false] at hdpq
    simp [AzureBlobStorage.parquet_to_df, encodeTable, hdpq, decodeTable]
  · simp [AzureBlobStorage.df_to_csv, hcsv]
  · simp only [encodeTable, Bool.false_eq_true, if_false] at hdcsv
    simp [AzureBlobStorage.csv_to_df, encodeTable, hdcsv, decodeTable]
  · simp [AzureBlobStorage.df_to_excel, hxl]
  · simpa [encodeTable] using hdxl
  · simp [decodeTable]
  · intro fmt; simp [encodeTable]

/-- Witness for C7: the payload with the single column `x = [1, 2, 3]`
written to `"t.parquet"` in container `"mycontainer"` and read back. -/
theorem tabular_roundtrip_witness :
    (AzureBlobStorage.mk "SEC" "mycontainer" ⟨"SEC"⟩
        ⟨⟨"SEC"⟩, "mycontainer"⟩).df_to_parquet
      ⟨none, [("mycontainer", [])]⟩
      ⟨[("x", [Cell.int 1, Cell.int 2, Cell.int 3])]⟩ "t.parquet" =
      .ok ("Blob 't.parquet' uploaded successfully",
           ⟨none, [("mycontainer",
             [("t.parquet",
               .tableData .parquet [("x", [Cell.int 1, Cell.int 2, Cell.int 3])])])]⟩) ∧
    (AzureBlobStorage.mk "SEC" "mycontainer" ⟨"SEC"⟩
        ⟨⟨"SEC"⟩, "mycontainer"⟩).parquet_to_df
      ⟨none, [("mycontainer",
        [("t.parquet",
          .tableData .parquet [("x", [Cell.int 1, Cell.int 2, Cell.int 3])])])]⟩
      "t.parquet" =
      .ok ⟨[("x", [Cell.int 1, Cell.int 2, Cell.int 3])]⟩ := by
  have h := (tabular_roundtrip
    (AzureBlobStorage.mk "SEC" "mycontainer" ⟨"SEC"⟩ ⟨⟨"SEC"⟩, "mycontainer"⟩)
    ⟨none, [("mycontainer", [])]⟩
    ⟨[("x", [Cell.int 1, Cell.int 2, Cell.int 3])]⟩ "t.parquet"
    rfl [] rfl).1
  exact ⟨by simpa [afterUpload, modifyAssoc, putAssoc, encodeTable] using h.1,
         by simpa [afterUpload, modifyAssoc, putAssoc, encodeTable] using h.2⟩

/-- C8: when credential resolution succeeds but a handle constructor of the
external collaborator fails with description `e` — the account-level
constructor, or the container-level constructor after a successful
account-level one — construction fails with a `ConnectionError` whose
message wraps `e` verbatim. -/
theorem init_wraps_connection_failures (env : Env) (csArg cnArg : Option String)
    (fc : String → Except String AccountHandle)
    (gc : AccountHandle → String → Except String ContainerHandle) (e : String)
    (hcs : truthy (pyOr csArg env.connectionString) = true)
    (hcn : truthy (pyOr cnArg env.containerName) = true) :
    (fc ((pyOr csArg env.connectionString).getD "") = .error e →
      AzureBlobStorage.init ⟨fc, gc⟩ env csArg cnArg =
        .error (.connectionError ("Failed to connect to Azure Storage: " ++ e))) ∧
    (∀ h, fc ((pyOr csArg env.connectionString).getD "") = .ok h →
      gc h ((pyOr cnArg env.containerName).getD "") = .error e →
      AzureBlobStorage.init ⟨fc, gc⟩ env csArg cnArg =
        .error (.connectionError ("Failed to connect to Azure Storage: " ++ e))) := by
  constructor
  · intro hf
    simp [AzureBlobStorage.init, hcs, hcn, hf]
  · intro h hok hg
    simp [AzureBlobStorage.init, hcs, hcn, hok, hg]

/-- Witness for C8: an account-handle constructor failing with
`"bad secret"` makes construction fail with the wrapped message. -/
theorem init_wraps_connection_failures_witness :
    AzureBlobStorage.init
        ⟨fun _ => .error "bad secret", fun h n => .ok ⟨h, n⟩⟩
        ⟨none, none, none, none⟩ (some "SEC") (some "C") =
      .error (.connectionError "Failed to connect to Azure Storage: bad secret") := by
  have h := (init_wraps_connection_failures ⟨none, none, none, none⟩
    (some "SEC") (some "C") (fun _ => .error "bad secret")
    (fun h n => .ok ⟨h, n⟩) "bad secret" (by decide) (by decide)).1 rfl
  simpa using h

theorem runOp_fst (self : AzureBlobStorage) (w : World) (o : Op) :
    (runOp self w o).1 = self := by
  cases o <;> simp only [runOp] <;> (try split) <;> rfl

theorem runSeq_fst (self : AzureBlobStorage) (w : World) (ops : List Op) :
    (runSeq self w ops).1 = self := by
  induction ops generalizing self w with
  | nil => rfl
  | cons o os ih =>
    have h := runOp_fst self w o
    cases hr : runOp self w o with
    | mk s2 w2 =>
      rw [hr] at h
      have h2 : s2 = self := h
      simp only [runSeq, hr]
      rw [h2]
      exact ih self w2

/-- C9: across every sequence of catalogued operations the facade object is
unchanged — its resolved connection string and container name, its account
handle and its bound container handle are those set at construction (no
method assigns an attribute of `self`) — and the two container operations
act only at the account level: a successful create or delete of a name `n`
leaves the stored content of every other container `c ≠ n`, in particular
the bound one, untouched. -/
theorem facade_binding_invariant (self : AzureBlobStorage) (w : World)
    (ops : List Op) :
    (runSeq self w ops).1.connection_string = self.connection_string ∧
    (runSeq self w ops).1.container_name = self.container_name ∧
    (runSeq self w ops).1.blob_service_client = self.blob_service_client ∧
    (runSeq self w ops).1.container_client = self.container_client ∧
    (∀ n c w1 m, c ≠ n → w.fault = none →
      self.create_container w n = .ok (m, w1) →
      getAssoc w1.containers c = getAssoc w.containers c) ∧
    (∀ n c w1 m, c ≠ n →
      self.delete_container w n = .ok (m, w1) →
      getAssoc w1.containers c = getAssoc w.containers c) := by
  refine ⟨by rw [runSeq_fst], by rw [runSeq_fst], by rw [runSeq_fst],
          by rw [runSeq_fst], ?_, ?_⟩
  · intro n c w1 m hcn hw hok
    by_cases hm : n ∈ w.containers.map Prod.fst
    · rw [create_container_when_exists self w n hw hm] at hok
      obtain ⟨-, h2⟩ : "Container '" ++ n ++ "' already exists" = m ∧ w = w1 := by
        simpa using hok
      rw [← h2]
    · by_cases hn : n = ""
      · subst hn
        have h2 : (getAssoc w.containers "").isSome = false := by
          rw [Bool.eq_false_iff]
          intro h
          exact hm ((getAssoc_isSome_iff_mem w.containers "").mp h)
        simp [AzureBlobStorage.create_container, World.list_containersSvc,
          World.create_containerSvc, hw, hm, h2] at hok
      · rw [create_container_when_absent self w n hw hn hm] at hok
        obtain ⟨-, h2⟩ : "Container '" ++ n ++ "' created successfully" = m ∧
            ({ w with containers := w.containers ++ [(n, [])] } : World) = w1 := by
          simpa using hok
        rw [← h2]
        exact getAssoc_append_single_ne w.containers n c [] hcn
  · intro n c w1 m hcn hok
    cases hf : w.fault with
    | some e =>
      simp [AzureBlobStorage.delete_container, World.delete_containerSvc, hf] at hok
    | none =>
      cases hm : (getAssoc w.containers n).isSome with
      | false =>
        simp [AzureBlobStorage.delete_container, World.delete_containerSvc,
          hf, hm] at hok
      | true =>
        have h3 : ("Container '" ++ n ++ "' deleted successfully" = m ∧
            ({ w with containers := removeAssoc w.containers n } : World) = w1) := by
          simpa [AzureBlobStorage.delete_container, World.delete_containerSvc,
            hf, hm] using hok
        rw [← h3.2]
        exact getAssoc_removeAssoc_ne w.containers n c hcn

/-- Witness for C9: after creating `"x"` and listing blobs, the facade
still carries the construction-time connection string, and the successful
creation of `"x"` left the stored content of `"cont"` unchanged. -/
theorem facade_binding_invariant_witness :
    (runSeq (AzureBlobStorage.mk "SEC" "cont" ⟨"SEC"⟩ ⟨⟨"SEC"⟩, "cont"⟩)
        ⟨none, [("cont", [])]⟩
        [Op.createContainer "x", Op.blobList]).1.connection_string = "SEC" ∧
    getAssoc (World.mk none [("cont", []), ("x", [])]).containers "cont" =
      getAssoc (World.mk none [("cont", [])]).containers "cont" := by
  refine ⟨(facade_binding_invariant
    (AzureBlobStorage.mk "SEC" "cont" ⟨"SEC"⟩ ⟨⟨"SEC"⟩, "cont"⟩)
    ⟨none, [("cont", [])]⟩ [Op.createContainer "x", Op.blobList]).1, ?_⟩
  exact (facade_binding_invariant
    (AzureBlobStorage.mk "SEC" "cont" ⟨"SEC"⟩ ⟨⟨"SEC"⟩, "cont"⟩)
    ⟨none, [("cont", [])]⟩ [Op.createContainer "x", Op.blobList]).2.2.2.2.1
    "x" "cont" ⟨none, [("cont", []), ("x", [])]⟩
    "Container 'x' created successfully" (by decide) rfl (by rfl)

theorem truthy_getD_ne (o : Option String) (h : truthy o = true) :
    o.getD "" ≠ "" := by
  cases o with
  | none => simp [truthy] at h
  | some s =>
    simp only [Option.getD_some]
    intro hs
    rw [hs] at h
    exact absurd h (by decide)

/-- C10: an empty-string explicit argument is treated as absent — for the
connection secret and for the container name, constructing with `some ""`
behaves exactly like constructing with `none` (so the environment value is
used when present); resolution of an empty-string secret yields the
environment value; when the environment secret is also absent, construction
fails with the missing-connection-string error; and on every successful
construction neither resolved credential is the empty string. -/
theorem empty_string_argument_treated_absent (collab : Collab) (env : Env)
    (csArg cnArg : Option String) :
    (AzureBlobStorage.init collab env (some "") cnArg =
      AzureBlobStorage.init collab env none cnArg) ∧
    (AzureBlobStorage.init collab env csArg (some "") =
      AzureBlobStorage.init collab env csArg none) ∧
    (pyOr (some "") env.connectionString = env.connectionString) ∧
    (env.connectionString = none →
      AzureBlobStorage.init collab env (some "") cnArg =
        .error (.valueError "Missing connection string. Check .env file or parameters")) ∧
    (∀ f, AzureBlobStorage.init collab env csArg cnArg = .ok f →
      f.connection_string ≠ "" ∧ f.container_name ≠ "") := by
  have h0 : truthy (some "") = false := by decide
  have h1 : truthy (none : Option String) = false := rfl
  have he : ∀ b : Option String, pyOr (some "") b = pyOr none b := by
    intro b
    simp [pyOr, h0, h1]
  refine ⟨?_, ?_, ?_, ?_, ?_⟩
  · simp only [AzureBlobStorage.init, he]
  · simp only [AzureBlobStorage.init, he]
  · simp [pyOr, h0]
  · intro h
    simp [AzureBlobStorage.init, pyOr, h0, h1, h]
  · intro f hok
    by_cases h1 : truthy (pyOr csArg env.connectionString) = true
    · by_cases h2 : truthy (pyOr cnArg env.containerName) = true
      · cases hfc : collab.from_connection_string
            ((pyOr csArg env.connectionString).getD "") with
        | error e =>
          simp [AzureBlobStorage.init, h1, h2, hfc] at hok
        | ok svc =>
          cases hgc : collab.get_container_client svc
              ((pyOr cnArg env.containerName).getD "") with
          | error e =>
            simp [AzureBlobStorage.init, h1, h2, hfc, hgc] at hok
          | ok cc =>
            have hf : f.connection_string = (pyOr csArg env.connectionString).getD "" ∧
                f.container_name = (pyOr cnArg env.containerName).getD "" := by
              have := hok
              simp [AzureBlobStorage.init, h1, h2, hfc, hgc] at this
              rw [← this]
              exact ⟨rfl, rfl⟩
            rw [hf.1, hf.2]
            exact ⟨truthy_getD_ne _ h1, truthy_getD_ne _ h2⟩
      · rw [Bool.not_eq_true] at h2
        simp [AzureBlobStorage.init, h1, h2] at hok
    · rw [Bool.not_eq_true] at h1
      simp [AzureBlobStorage.init, h1] at hok

/-- Witness for C10: with environment secret `"E"`, an empty-string secret
argument behaves like an absent one; with no environment secret it fails
with the missing-connection-string error; and the successful construction
resolves to the non-empty environment values. -/
theorem empty_string_argument_treated_absent_witness :
    (AzureBlobStorage.init lazyCollab ⟨some "E", some "c", none, none⟩
        (some "") none =
      AzureBlobStorage.init lazyCollab ⟨some "E", some "c", none, none⟩
        none none) ∧
    (AzureBlobStorage.init lazyCollab ⟨none, some "c", none, none⟩
        (some "") (some "c") =
      .error (.valueError "Missing connection string. Check .env file or parameters")) ∧
    ("E" ≠ "" ∧ "c" ≠ "") := by
  refine ⟨(empty_string_argument_treated_absent lazyCollab
    ⟨some "E", some "c", none, none⟩ none none).1,
    (empty_string_argument_treated_absent lazyCollab
      ⟨none, some "c", none, none⟩ none (some "c")).2.2.2.1 rfl, ?_⟩
  exact (empty_string_argument_treated_absent lazyCollab
    ⟨some "E", some "c", none, none⟩ (some "") none).2.2.2.2
    ⟨"E", "c", ⟨"E"⟩, ⟨⟨"E"⟩, "c"⟩⟩ (by rfl)

end Claims

end AzureIntegrator
